import Mathlib

/-!
Shallow embedding of the Voliware/WebSocketClient connection manager.

The repository has two variants of the `WebSocketClient` class:

* `lib/webSocketClient.js` — the camelCase library variant (a snake_case copy
  of the same logic also appears in the build output);
* a ping/pong variant (bundled in `build.js`) that adds latency measurement
  and JSON decoding of inbound messages.

The manager's own state is the `Client` record.  The host environment
(the `WebSocket` primitive, `setInterval` / `clearInterval`, and the
`EventSystem` notifier) is modelled by the `Host` record: sockets and
repeating timers are identified by natural-number handles, and the host
records which timers are live, which sockets have had event listeners
attached (listeners are attached per socket and the code never removes
them), which payloads were handed to the transport, and which events were
emitted to consumers.  Every operation below is a direct translation of
the corresponding method body.
-/

namespace WSC

/-- Numeric value of the host constant `WebSocket.CONNECTING`. -/
def wsCONNECTING : Nat := 0

/-- Numeric value of the host constant `WebSocket.OPEN`. -/
def wsOPEN : Nat := 1

/-- Numeric value of the host constant `WebSocket.CLOSING`. -/
def wsCLOSING : Nat := 2

/-- Numeric value of the host constant `WebSocket.CLOSED`. -/
def wsCLOSED : Nat := 3

/-- Events published to the event notifier by `this.emit(...)`. -/
inductive Emitted where
  | openE
  | messageE (data : String)
  | errorE
  | closeE (wasClean : Bool)
deriving Repr, DecidableEq

/-- Instance fields of `WebSocketClient` (lib variant), as set up by the
constructor.  `websocket` holds the current socket handle (`null` = `none`)
and `reconnectInterval` the current repeating-timer handle. -/
structure Client where
  url : String
  websocket : Option Nat
  binaryType : String
  reconnectInterval : Option Nat
  reconnectAttempts : Nat
  reconnectIntervalTimer : Nat
  maxReconnectAttempts : Nat
  autoReconnect : Bool
  wasClosedOnPurpose : Bool
deriving Repr, DecidableEq

/-- State of the host environment surrounding the manager. -/
structure Host where
  nextSocketId : Nat
  nextTimerId : Nat
  activeTimers : List Nat
  attachedSockets : List Nat
  socketReady : List (Nat × Nat)
  closeRequested : List Nat
  sent : List String
  emitted : List Emitted
deriving Repr, DecidableEq

/-- Manager plus host environment. -/
structure Sys where
  client : Client
  host : Host
deriving Repr, DecidableEq

/-- Host primitive `setInterval(cb, period)`: allocates a fresh repeating
timer and returns its handle. -/
def setIntervalOp (h : Host) : Nat × Host :=
  (h.nextTimerId,
   { h with nextTimerId := h.nextTimerId + 1,
            activeTimers := h.nextTimerId :: h.activeTimers })

/-- Host primitive `clearInterval(handle)`: a no-op on `null`, otherwise
cancels the timer with that handle. -/
def clearIntervalOp (h : Host) (t : Option Nat) : Host :=
  match t with
  | none => h
  | some t => { h with activeTimers := h.activeTimers.filter (fun x => x != t) }

/-- Method `emit(event, payload)` inherited from `EventSystem`: publish an
event to consumers (fire and forget). -/
def emit (s : Sys) (e : Emitted) : Sys :=
  { s with host := { s.host with emitted := e :: s.host.emitted } }

/-- Method `stopAutoReconnect()`: `clearInterval(this.reconnectInterval)`
then `this.reconnectInterval = null`. -/
def stopAutoReconnect (s : Sys) : Sys :=
  { client := { s.client with reconnectInterval := none },
    host := clearIntervalOp s.host s.client.reconnectInterval }

/-- Method `startAutoReconnect()`: `this.reconnectAttempts = 0` then
`this.reconnectInterval = setInterval(this.reconnect.bind(this), this.reconnectIntervalTimer)`. -/
def startAutoReconnect (s : Sys) : Sys :=
  let th := setIntervalOp s.host
  { client := { s.client with reconnectAttempts := 0, reconnectInterval := some th.1 },
    host := th.2 }

/-- Method `close()`: if a socket exists, set `wasClosedOnPurpose` and ask
the socket to close; in all cases `this.websocket = null`. -/
def close (s : Sys) : Sys :=
  match s.client.websocket with
  | some sid =>
      { client := { s.client with wasClosedOnPurpose := true, websocket := none },
        host := { s.host with closeRequested := sid :: s.host.closeRequested } }
  | none =>
      { s with client := { s.client with websocket := none } }

/-- Method `connect()`: `this.close()`, then `this.websocket = new WebSocket(this.url)`
(the new socket starts in the CONNECTING ready state), then
`this.attachWebSocketHandlers()` — the handle is recorded as having
listeners attached. -/
def connect (s : Sys) : Sys :=
  let s := close s
  let sid := s.host.nextSocketId
  { client := { s.client with websocket := some sid },
    host := { s.host with nextSocketId := sid + 1,
                          socketReady := (sid, wsCONNECTING) :: s.host.socketReady,
                          attachedSockets := sid :: s.host.attachedSockets } }

/-- Method `disconnect()`: alias to `close`. -/
def disconnect (s : Sys) : Sys :=
  close s

/-- Body of the `open` listener installed by `attachWebSocketHandlers`:
`this.stopAutoReconnect(); this.emit('open', event)`. -/
def openBody (s : Sys) : Sys :=
  emit (stopAutoReconnect s) .openE

/-- Body of the `message` listener: `this.emit('message', data)`. -/
def messageBody (d : String) (s : Sys) : Sys :=
  emit s (.messageE d)

/-- Body of the `error` listener: emit `error`, then start auto-reconnect
when `autoReconnect` is set and no timer is active. -/
def errorBody (s : Sys) : Sys :=
  let s := emit s .errorE
  if s.client.autoReconnect && s.client.reconnectInterval.isNone then
    startAutoReconnect s
  else s

/-- Body of the `close` listener: emit `close`, start auto-reconnect only
when the close was not on purpose, not clean, `autoReconnect` is set and no
timer is active; finally reset `wasClosedOnPurpose`. -/
def closeBody (wasClean : Bool) (s : Sys) : Sys :=
  let s := emit s (.closeE wasClean)
  let s :=
    if !s.client.wasClosedOnPurpose && !wasClean &&
       s.client.autoReconnect && s.client.reconnectInterval.isNone then
      startAutoReconnect s
    else s
  { s with client := { s.client with wasClosedOnPurpose := false } }

/-- Events a socket can deliver to its listeners. -/
inductive Ev where
  | openEv
  | messageEv (d : String)
  | errorEv
  | closeEv (wasClean : Bool)
deriving Repr, DecidableEq

/-- Dispatch of one delivered event to the listener bodies attached by
`attachWebSocketHandlers`.  The bodies close over the manager (`this`),
never over the socket that fired, so they take only the current state. -/
def handlerBody (e : Ev) (s : Sys) : Sys :=
  match e with
  | .openEv => openBody s
  | .messageEv d => messageBody d s
  | .errorEv => errorBody s
  | .closeEv wc => closeBody wc s

/-- Delivery of an event fired by socket `sid`.  Listeners were attached to
`sid` by `attachWebSocketHandlers` and are never removed, so the bodies run
whenever `sid` ever had handlers attached — there is no identity check
against the manager's current handle. -/
def deliver (sid : Nat) (e : Ev) (s : Sys) : Sys :=
  if sid ∈ s.host.attachedSockets then handlerBody e s else s

/-- Method `reconnect()`: connect again unless the attempt bound is
reached, in which case stop the cycle. -/
def reconnect (s : Sys) : Sys :=
  if s.client.maxReconnectAttempts = 0 ∨
     s.client.reconnectAttempts < s.client.maxReconnectAttempts then
    connect { s with client := { s.client with reconnectAttempts := s.client.reconnectAttempts + 1 } }
  else
    stopAutoReconnect s

/-- One tick of the repeating timer with handle `t`: the host fires the
callback (`this.reconnect`) only while the timer is live. -/
def tick (t : Nat) (s : Sys) : Sys :=
  if t ∈ s.host.activeTimers then reconnect s else s

/-- Iterated firing of the reconnect callback, as the armed repeating
timer does once per period. -/
def reconnectN : Nat → Sys → Sys
  | 0, s => s
  | n + 1, s => reconnectN n (reconnect s)

/-- Synchronous failure of `send`: `this.websocket.send(msg)` dereferences
`null` when no socket handle exists. -/
inductive SendError where
  | notConnected
deriving Repr, DecidableEq

/-- Method `send(msg)`: forwards the payload to the transport; throws when
`this.websocket` is `null`. -/
def send (s : Sys) (msg : String) : Except SendError Sys :=
  match s.client.websocket with
  | none => .error .notConnected
  | some _ => .ok { s with host := { s.host with sent := msg :: s.host.sent } }

/-- Method `sendJson(json)`: `this.send(JSON.stringify(json))`.  The host
primitive `JSON.stringify` is an external collaborator, passed in as a
function on structured values of any type. -/
def sendJson {α : Type} (stringify : α → String) (s : Sys) (v : α) : Except SendError Sys :=
  send s (stringify v)

/-- Method `getReadyState()`: ready state of the current socket, or
`WebSocket.CLOSED` when no socket exists. -/
def getReadyState (s : Sys) : Nat :=
  match s.client.websocket with
  | some sid => ((s.host.socketReady.lookup sid).getD wsCLOSED)
  | none => wsCLOSED

/-- Method `getIsConnected()`: `this.getReadyState() === WebSocket.OPEN`. -/
def getIsConnected (s : Sys) : Bool :=
  getReadyState s == wsOPEN

/-- Constructor options of the lib variant (all optional, with defaults). -/
structure Options where
  url : Option String
  autoReconnect : Option Bool
  maxReconnectAttempts : Option Nat
  reconnectIntervalTimer : Option Nat
  binaryType : Option String
deriving Repr, DecidableEq

/-- Constructor of the lib variant.  `isSecurePage` stands for
`window.location.protocol === "https:"`; on a secure page a non-`wss`
scheme is rewritten to `wss`. -/
def initClient (isSecurePage : Bool) (opts : Options) : Client :=
  let c : Client :=
    { url := opts.url.getD "ws://localhost"
      websocket := none
      binaryType := opts.binaryType.getD "blob"
      reconnectInterval := none
      reconnectAttempts := 0
      reconnectIntervalTimer := opts.reconnectIntervalTimer.getD 1000
      maxReconnectAttempts := opts.maxReconnectAttempts.getD 0
      autoReconnect := opts.autoReconnect.getD true
      wasClosedOnPurpose := false }
  let urlArr := c.url.splitOn ":"
  if isSecurePage && (urlArr.headD "" != "wss") then
    { c with url := String.intercalate ":" ("wss" :: urlArr.tail) }
  else c

/-- Fresh host environment: no sockets, no timers, nothing delivered. -/
def initHost : Host :=
  { nextSocketId := 0, nextTimerId := 0, activeTimers := [],
    attachedSockets := [], socketReady := [], closeRequested := [],
    sent := [], emitted := [] }

/-- Freshly constructed manager in a fresh host environment. -/
def initSys (isSecurePage : Bool) (opts : Options) : Sys :=
  { client := initClient isSecurePage opts, host := initHost }

/-- Operations that can drive the manager: the public methods, a timer
tick, and delivery of a socket event. -/
inductive Op where
  | connectOp
  | closeOp
  | disconnectOp
  | tickOp (t : Nat)
  | deliverOp (sid : Nat) (e : Ev)
deriving Repr, DecidableEq

/-- Apply one operation to the system. -/
def applyOp (s : Sys) : Op → Sys
  | .connectOp => connect s
  | .closeOp => close s
  | .disconnectOp => disconnect s
  | .tickOp t => tick t s
  | .deliverOp sid e => deliver sid e s

/-- Run a sequence of operations from a state. -/
def run (s : Sys) (ops : List Op) : Sys :=
  ops.foldl applyOp s

/-- Timer-handle invariant: the manager's `reconnectInterval` field is the
sole live timer — no timer is live when the field is `null`, and exactly
the named one is live otherwise. -/
def timerInv (s : Sys) : Prop :=
  match s.client.reconnectInterval with
  | none => s.host.activeTimers = []
  | some t => s.host.activeTimers = [t]

/-!
Ping/pong variant of `WebSocketClient` (bundled in `build.js`).  Its
constructor takes an options object and reads each field with an
`isNaN`/`undefined` check; JS `undefined` is modelled by `none`.
-/

/-- Constructor options of the ping/pong variant. -/
structure PingOptions where
  ip : Option String
  port : Option Nat
  autoReconnect : Option Bool
  maxReconnectAttempts : Option Nat
  reconnectIntervalTimer : Option Nat
  id : Option String
deriving Repr, DecidableEq

/-- Instance fields of the ping/pong variant.  `reconnectIntervalTimer`
is kept as an optional number because the constructor can leave it
`undefined` (see `pingInit`). -/
structure PingClient where
  ip : String
  port : Nat
  id : Option String
  ws : Option Nat
  lastPingSent : Nat
  latency : Int
  reconnectInterval : Option Nat
  reconnectAttempts : Nat
  reconnectIntervalTimer : Option Nat
  maxReconnectAttempts : Nat
  autoReconnect : Bool
deriving Repr, DecidableEq

/-- Constructor of the ping/pong variant.  Note the source line
`this.reconnectIntervalTimer = isNaN(options.reconnectIntervalTimer) ? 1000 : options.maxReconnectAttempts`:
when the interval option is present, the field is taken from
`options.maxReconnectAttempts` instead. -/
def pingInit (opts : PingOptions) : PingClient :=
  { ip := opts.ip.getD "wss://localhost"
    port := opts.port.getD 443
    id := opts.id
    ws := none
    lastPingSent := 0
    latency := 0
    reconnectInterval := none
    reconnectAttempts := 0
    reconnectIntervalTimer :=
      match opts.reconnectIntervalTimer with
      | none => some 1000
      | some _ => opts.maxReconnectAttempts
    maxReconnectAttempts := opts.maxReconnectAttempts.getD 0
    autoReconnect := opts.autoReconnect.getD true }

/-- Inbound message object as the ping-variant listener reads it: a
control tag (`data.event`) and a payload text (`data.data`). -/
structure PingMsg where
  event : Option String
  data : String
deriving Repr, DecidableEq

/-- Synchronous failure inside a ping-variant listener (a `null`
dereference in `self.send`). -/
inductive JsError where
  | nullDeref
deriving Repr, DecidableEq

/-- Observable outcome of one run of the ping-variant `message` listener:
the manager state afterwards, payloads handed to `ws.send`, values emitted
as `message` events, and `console.error` log lines. -/
structure PingStep (α : Type) where
  client : PingClient
  sentOut : List String
  messagesEmitted : List α
  logged : List String
deriving Repr

/-- Body of the ping-variant `message` listener.  `/ping` is answered with
a `pong` send, `/pong` records latency (`now` stands for
`performance.now()`), anything else is run through the host primitive
`JSON.parse` (passed in as `parse`) and emitted on success or logged via
`console.error` on failure. -/
def pingHandleMessage {α : Type} (now : Nat) (parse : String → Option α)
    (m : PingMsg) (c : PingClient) : Except JsError (PingStep α) :=
  if m.event = some "/ping" then
    match c.ws with
    | some _ => .ok { client := c, sentOut := ["pong"], messagesEmitted := [], logged := [] }
    | none => .error .nullDeref
  else if m.event = some "/pong" then
    .ok { client := { c with latency := (now : Int) - (c.lastPingSent : Int) },
          sentOut := [], messagesEmitted := [], logged := [] }
  else
    match parse m.data with
    | some j => .ok { client := c, sentOut := [], messagesEmitted := [j], logged := [] }
    | none => .ok { client := c, sentOut := [], messagesEmitted := [], logged := ["SyntaxError"] }

/-! Concrete sample states used by witnesses and counterexamples. -/

/-- Options object with every field absent (all defaults apply). -/
def optsNone : Options := ⟨none, none, none, none, none⟩

/-- Freshly constructed manager with default options on an insecure page. -/
def sys0 : Sys := initSys false optsNone

/-- Default-options manager after one `connect()` (current socket is 0). -/
def sys1 : Sys := run sys0 [.connectOp]

/-- Freshly constructed ping-variant manager with an empty options object. -/
def pingC0 : PingClient := pingInit ⟨none, none, none, none, none, none⟩

/-! Theorems. -/

/-- C7: calling `close()` when no socket handle exists does not throw
(`close` is a total function), does not arm a reconnect timer, and leaves
the whole system state unchanged (the intent flag is not even set, since
the guard skips it). -/
theorem close_without_socket_is_noop (s : Sys) (h : s.client.websocket = none) :
    close s = s := by
  obtain ⟨⟨u, w, b, ri, ra, rit, mra, ar, wc⟩, hst⟩ := s
  simp only at h
  subst h
  rfl

/-- Witness for C7 at the freshly-constructed default manager. -/
theorem close_without_socket_is_noop_witness :
    sys0.client.websocket = none ∧ close sys0 = sys0 :=
  ⟨rfl, close_without_socket_is_noop sys0 rfl⟩

/-- C10: with an empty socket handle, `getReadyState()` returns
`WebSocket.CLOSED` and `getIsConnected()` returns `false`; both are pure
total functions, so neither throws nor mutates state. -/
theorem ready_state_without_socket (s : Sys) (h : s.client.websocket = none) :
    getReadyState s = wsCLOSED ∧ getIsConnected s = false := by
  have h1 : getReadyState s = wsCLOSED := by
    unfold getReadyState
    rw [h]
  refine ⟨h1, ?_⟩
  unfold getIsConnected
  rw [h1]
  decide

/-- Witness for C10 at the freshly-constructed default manager. -/
theorem ready_state_without_socket_witness :
    getReadyState sys0 = wsCLOSED ∧ getIsConnected sys0 = false :=
  ready_state_without_socket sys0 rfl

/-- C8: `send` (and the structured `sendJson` convenience) with no socket
handle fails with a `notConnected` error instead of silently dropping the
payload; `connect` and `close` are total functions of the state, so no
other synchronous error escapes them. -/
theorem send_without_socket_fails {α : Type} (stringify : α → String)
    (s : Sys) (v : α) (msg : String) (h : s.client.websocket = none) :
    send s msg = .error .notConnected ∧
    sendJson stringify s v = .error .notConnected := by
  have h1 : ∀ m, send s m = .error .notConnected := by
    intro m
    unfold send
    rw [h]
  exact ⟨h1 msg, h1 (stringify v)⟩

/-- Witness for C8: sending a structured value before any `connect()`. -/
theorem send_without_socket_fails_witness :
    send sys0 "a" = .error .notConnected ∧
    sendJson (fun n : Nat => toString n) sys0 1 = .error .notConnected :=
  send_without_socket_fails (fun n : Nat => toString n) sys0 1 "a" rfl

/-- C5 (code bug): the ping-variant constructor takes the timer period
from `options.maxReconnectAttempts` whenever `options.reconnectIntervalTimer`
is present — with interval 5000 and bound 3 the stored period is 3. -/
theorem ping_interval_taken_from_max_attempts :
    (pingInit { ip := none, port := none, autoReconnect := none,
                maxReconnectAttempts := some 3,
                reconnectIntervalTimer := some 5000,
                id := none }).reconnectIntervalTimer = some 3 ∧
    (5000 : Nat) ≠ 3 := by
  exact ⟨rfl, by decide⟩

/-- Lib-variant constructor for comparison: the stored timer period always
equals the configured `reconnectIntervalTimer` option (default 1000),
never `maxReconnectAttempts`. -/
theorem lib_interval_from_own_option (isSecure : Bool) (opts : Options) :
    (initClient isSecure opts).reconnectIntervalTimer = opts.reconnectIntervalTimer.getD 1000 := by
  unfold initClient
  dsimp only
  split <;> rfl

/-- Witness for the lib-variant interval lemma at a concrete option set. -/
theorem lib_interval_from_own_option_witness :
    (initClient false ⟨none, none, some 3, some 5000, none⟩).reconnectIntervalTimer = 5000 :=
  lib_interval_from_own_option false ⟨none, none, some 3, some 5000, none⟩

/-- C9: in the ping variant, a non-control inbound payload whose JSON
parse fails is logged and dropped — the listener returns normally (no
exception), emits no `message` event, and leaves the manager state
untouched; inbound `/ping` and `/pong` control messages are never
surfaced as `message` events either. -/
theorem ping_message_parse_failure_dropped {α : Type} (now : Nat)
    (parse : String → Option α) (m : PingMsg) (c : PingClient) :
    (m.event ≠ some "/ping" → m.event ≠ some "/pong" → parse m.data = none →
      pingHandleMessage now parse m c =
        .ok { client := c, sentOut := [], messagesEmitted := [], logged := ["SyntaxError"] }) ∧
    ((m.event = some "/ping" ∨ m.event = some "/pong") →
      ∀ st, pingHandleMessage now parse m c = Except.ok st → st.messagesEmitted = []) := by
  constructor
  · intro hping hpong hparse
    unfold pingHandleMessage
    rw [if_neg hping, if_neg hpong, hparse]
  · rintro (hp | hp) st hok
    · unfold pingHandleMessage at hok
      rw [if_pos hp] at hok
      cases hws : c.ws <;> rw [hws] at hok
      · cases hok
      · cases hok
        rfl
    · unfold pingHandleMessage at hok
      have hne : m.event ≠ some "/ping" := by
        rw [hp]
        decide
      rw [if_neg hne, if_pos hp] at hok
      cases hok
      rfl

/-- Witness for C9: a failing parse of payload "x" with no control tag is
logged and dropped, and a `/pong` control message emits no `message`. -/
theorem ping_message_parse_failure_dropped_witness :
    pingHandleMessage 0 (fun _ : String => (none : Option Nat)) ⟨none, "x"⟩ pingC0 =
      .ok { client := pingC0, sentOut := [], messagesEmitted := [], logged := ["SyntaxError"] } ∧
    (∀ st, pingHandleMessage 0 (fun _ : String => (none : Option Nat)) ⟨some "/pong", "x"⟩ pingC0 =
      Except.ok st → st.messagesEmitted = []) :=
  ⟨(ping_message_parse_failure_dropped 0 (fun _ => none) ⟨none, "x"⟩ pingC0).1
      (by decide) (by decide) rfl,
   (ping_message_parse_failure_dropped 0 (fun _ => none) ⟨some "/pong", "x"⟩ pingC0).2
      (Or.inr rfl)⟩

/-- Reachable state refuting the reset-on-open part of C1: default
manager, connect, error (arms timer 0, attempts 0), two timer ticks
(attempts 2, current socket 2, timer still armed). -/
def c1state : Sys :=
  run sys0 [.connectOp, .deliverOp 0 .errorEv, .tickOp 0, .tickOp 0]

/-- Counterexample to C1 as stated: in a reachable state with the timer
armed and `reconnectAttempts = 2`, delivering `open` from the current
socket disarms the timer but leaves `reconnectAttempts` at 2, not 0. -/
theorem open_does_not_reset_attempts :
    c1state.client.reconnectInterval = some 0 ∧
    c1state.client.reconnectAttempts = 2 ∧
    c1state.client.websocket = some 2 ∧
    (deliver 2 .openEv c1state).client.reconnectInterval = none ∧
    (deliver 2 .openEv c1state).client.reconnectAttempts ≠ 0 := by
  decide

/-- C1 amended: delivering a successful `open` event disarms any active
reconnect timer (the handle becomes empty) and leaves `reconnectAttempts`
unchanged; the counter is instead reset to 0 when a reconnect cycle
starts (`startAutoReconnect`). -/
theorem open_disarms_timer (s : Sys) (sid : Nat)
    (h : sid ∈ s.host.attachedSockets) :
    (deliver sid .openEv s).client.reconnectInterval = none ∧
    (deliver sid .openEv s).client.reconnectAttempts = s.client.reconnectAttempts ∧
    (startAutoReconnect s).client.reconnectAttempts = 0 := by
  unfold deliver
  rw [if_pos h]
  exact ⟨rfl, rfl, rfl⟩

/-- Witness for the amended C1 at the connected default manager. -/
theorem open_disarms_timer_witness :
    (deliver 0 .openEv sys1).client.reconnectInterval = none ∧
    (deliver 0 .openEv sys1).client.reconnectAttempts = sys1.client.reconnectAttempts ∧
    (startAutoReconnect sys1).client.reconnectAttempts = 0 :=
  open_disarms_timer sys1 0 (by decide)

/-- Supporting lemma: when the held socket's `close` event is the first
event delivered after `close()`, it never arms the reconnect timer,
whatever the event's `wasClean` flag — the intent flag is still set, so
the guard fails and the timer handle and live-timer set are exactly what
they were before.  This does not extend to every run: see
`held_socket_close_event_arms_timer`. -/
theorem intentional_close_never_arms (s : Sys) (sid : Nat) (wasClean : Bool)
    (h : s.client.websocket = some sid) :
    (deliver sid (.closeEv wasClean) (close s)).client.reconnectInterval =
      s.client.reconnectInterval ∧
    (deliver sid (.closeEv wasClean) (close s)).host.activeTimers =
      s.host.activeTimers := by
  have hclose : close s =
      { client := { s.client with wasClosedOnPurpose := true, websocket := none },
        host := { s.host with closeRequested := sid :: s.host.closeRequested } } := by
    unfold close
    rw [h]
  rw [hclose]
  unfold deliver
  by_cases hmem : sid ∈ s.host.attachedSockets
  · rw [if_pos hmem]
    unfold handlerBody closeBody emit
    simp
  · rw [if_neg hmem]
    exact ⟨rfl, rfl⟩

/-- Concrete instance of the immediate-delivery lemma at the connected
default manager with an unclean flag. -/
theorem intentional_close_never_arms_witness :
    (deliver 0 (.closeEv false) (close sys1)).client.reconnectInterval =
      sys1.client.reconnectInterval ∧
    (deliver 0 (.closeEv false) (close sys1)).host.activeTimers =
      sys1.host.activeTimers :=
  intentional_close_never_arms sys1 0 false rfl

/-- Reachable state for the C4 counterexample: two `connect()` calls, so
socket 0 has been discarded and socket 1 is current; both still have
their listeners attached and no timer is armed. -/
def c4state : Sys := run sys0 [.connectOp, .connectOp]

/-- C4 fails on the code: the listener bodies never check the firing
socket against the current handle and are never removed from a discarded
socket, so a stale `error` event from discarded socket 0 arms a reconnect
timer — the manager's state changes. -/
theorem stale_error_event_arms_timer :
    c4state.client.websocket = some 1 ∧
    (0 : Nat) ∈ c4state.host.attachedSockets ∧
    c4state.client.reconnectInterval = none ∧
    (deliver 0 .errorEv c4state).client.reconnectInterval = some 0 ∧
    (deliver 0 .errorEv c4state).client ≠ c4state.client := by
  decide

/-- C3 fails on the code: in the run connect(), connect(), close() the
manager holds socket 1 when `close()` is called and the intent flag is
set; delivering discarded socket 0's close event first resets the flag
(the close listener clears it unconditionally), after which the held
socket 1's own unclean close event passes the guard and arms the
reconnect timer — against the claim that the close event of a socket
held at `close()` never arms it. -/
theorem held_socket_close_event_arms_timer :
    c4state.client.websocket = some 1 ∧
    (close c4state).client.wasClosedOnPurpose = true ∧
    (close c4state).client.reconnectInterval = none ∧
    (deliver 0 (.closeEv false) (close c4state)).client.wasClosedOnPurpose = false ∧
    (deliver 0 (.closeEv false) (close c4state)).client.reconnectInterval = none ∧
    (deliver 1 (.closeEv false)
        (deliver 0 (.closeEv false) (close c4state))).client.reconnectInterval = some 0 := by
  decide

/-! Preservation of the timer-handle invariant, operation by operation. -/

/-- The invariant depends only on the timer-handle field and the live
timer list, so it transfers along equality of those two fields. -/
theorem timerInv_congr (a b : Sys)
    (h1 : a.client.reconnectInterval = b.client.reconnectInterval)
    (h2 : a.host.activeTimers = b.host.activeTimers)
    (h : timerInv b) : timerInv a := by
  unfold timerInv at h ⊢
  rw [h1, h2]
  exact h

/-- Emitting an event to consumers preserves the timer invariant. -/
theorem timerInv_emit (s : Sys) (e : Emitted) (h : timerInv s) :
    timerInv (emit s e) :=
  timerInv_congr _ s rfl rfl h

/-- Stopping auto-reconnect preserves the timer invariant: the cleared
handle was the sole live timer, so none remains. -/
theorem timerInv_stop (s : Sys) (h : timerInv s) :
    timerInv (stopAutoReconnect s) := by
  unfold timerInv at h ⊢
  cases hri : s.client.reconnectInterval with
  | none =>
      rw [hri] at h
      simp [stopAutoReconnect, clearIntervalOp, hri, h]
  | some t =>
      rw [hri] at h
      simp [stopAutoReconnect, clearIntervalOp, hri, h]

/-- Starting auto-reconnect from a state with no live timer yields exactly
one live timer, the newly stored handle. -/
theorem timerInv_start (s : Sys) (h : timerInv s)
    (hnone : s.client.reconnectInterval = none) :
    timerInv (startAutoReconnect s) := by
  unfold timerInv at h ⊢
  rw [hnone] at h
  simp [startAutoReconnect, setIntervalOp, h]

/-- The method `close` touches neither the timer handle nor the live
timer list. -/
theorem timerInv_close (s : Sys) (h : timerInv s) : timerInv (close s) := by
  refine timerInv_congr _ s ?_ ?_ h <;>
    · unfold close
      cases hw : s.client.websocket <;> rfl

/-- The method `connect` touches neither the timer handle nor the live
timer list. -/
theorem timerInv_connect (s : Sys) (h : timerInv s) : timerInv (connect s) := by
  refine timerInv_congr _ s ?_ ?_ h <;>
    · unfold connect close
      cases hw : s.client.websocket <;> rfl

/-- The timer callback `reconnect` preserves the invariant: it either
connects again (timers untouched) or stops the cycle. -/
theorem timerInv_reconnect (s : Sys) (h : timerInv s) :
    timerInv (reconnect s) := by
  unfold reconnect
  split
  · exact timerInv_connect _ (timerInv_congr _ s rfl rfl h)
  · exact timerInv_stop s h

/-- Each listener body preserves the invariant. -/
theorem timerInv_handlerBody (s : Sys) (e : Ev) (h : timerInv s) :
    timerInv (handlerBody e s) := by
  cases e with
  | openEv => exact timerInv_emit _ _ (timerInv_stop s h)
  | messageEv d => exact timerInv_emit _ _ h
  | errorEv =>
      show timerInv (errorBody s)
      unfold errorBody
      dsimp only
      split
      · next hguard =>
          refine timerInv_start _ (timerInv_emit s _ h) ?_
          have := (Bool.and_eq_true _ _).mp hguard
          exact Option.isNone_iff_eq_none.mp this.2
      · exact timerInv_emit s _ h
  | closeEv wc =>
      show timerInv (closeBody wc s)
      have hin : timerInv
          (if (!(emit s (.closeE wc)).client.wasClosedOnPurpose && !wc &&
               (emit s (.closeE wc)).client.autoReconnect &&
               (emit s (.closeE wc)).client.reconnectInterval.isNone) = true then
             startAutoReconnect (emit s (.closeE wc))
           else emit s (.closeE wc)) := by
        split
        · next hguard =>
            refine timerInv_start _ (timerInv_emit s _ h) ?_
            simp only [Bool.and_eq_true] at hguard
            exact Option.isNone_iff_eq_none.mp hguard.2
        · exact timerInv_emit s _ h
      exact timerInv_congr _ _ rfl rfl hin

/-- Event delivery preserves the invariant. -/
theorem timerInv_deliver (s : Sys) (sid : Nat) (e : Ev) (h : timerInv s) :
    timerInv (deliver sid e s) := by
  unfold deliver
  split
  · exact timerInv_handlerBody s e h
  · exact h

/-- A timer tick preserves the invariant. -/
theorem timerInv_tick (s : Sys) (t : Nat) (h : timerInv s) :
    timerInv (tick t s) := by
  unfold tick
  split
  · exact timerInv_reconnect s h
  · exact h

/-- Every operation preserves the invariant. -/
theorem timerInv_applyOp (s : Sys) (op : Op) (h : timerInv s) :
    timerInv (applyOp s op) := by
  cases op with
  | connectOp => exact timerInv_connect s h
  | closeOp => exact timerInv_close s h
  | disconnectOp => exact timerInv_close s h
  | tickOp t => exact timerInv_tick s t h
  | deliverOp sid e => exact timerInv_deliver s sid e h

/-- A freshly constructed manager satisfies the invariant. -/
theorem timerInv_init (isSecure : Bool) (opts : Options) :
    timerInv (initSys isSecure opts) := by
  have h1 : (initClient isSecure opts).reconnectInterval = none := by
    unfold initClient
    dsimp only
    split <;> rfl
  unfold timerInv initSys
  rw [h1]
  rfl

/-- The invariant holds along every run of operations. -/
theorem timerInv_run (ops : List Op) : ∀ s : Sys, timerInv s → timerInv (run s ops) := by
  induction ops with
  | nil => exact fun s h => h
  | cons op ops ih => exact fun s h => ih (applyOp s op) (timerInv_applyOp s op h)

/-- C6: in every state reachable from construction at most one reconnect
timer is live, and delivering an `error` event from an attached socket
while `autoReconnect` is set and no timer is active leaves exactly one
live timer, recorded in the (now non-empty) timer handle. -/
theorem error_event_arms_exactly_one_timer (isSecure : Bool) (opts : Options)
    (ops : List Op) (sid : Nat) :
    (run (initSys isSecure opts) ops).host.activeTimers.length ≤ 1 ∧
    (sid ∈ (run (initSys isSecure opts) ops).host.attachedSockets →
     (run (initSys isSecure opts) ops).client.autoReconnect = true →
     (run (initSys isSecure opts) ops).client.reconnectInterval = none →
     (deliver sid .errorEv (run (initSys isSecure opts) ops)).host.activeTimers.length = 1 ∧
     (deliver sid .errorEv (run (initSys isSecure opts) ops)).client.reconnectInterval ≠ none) := by
  have hinv : timerInv (run (initSys isSecure opts) ops) :=
    timerInv_run ops _ (timerInv_init isSecure opts)
  constructor
  · unfold timerInv at hinv
    cases hri : (run (initSys isSecure opts) ops).client.reconnectInterval with
    | none =>
        rw [hri] at hinv
        rw [hinv]
        decide
    | some t =>
        rw [hri] at hinv
        rw [hinv]
        exact Nat.le_refl 1
  · intro hmem hauto hnone
    unfold timerInv at hinv
    rw [hnone] at hinv
    unfold deliver
    rw [if_pos hmem]
    show (errorBody _).host.activeTimers.length = 1 ∧
         (errorBody _).client.reconnectInterval ≠ none
    unfold errorBody
    rw [if_pos (by simp [emit, hauto, hnone])]
    constructor
    · simp [startAutoReconnect, setIntervalOp, emit, hinv]
    · simp [startAutoReconnect, setIntervalOp, emit]

/-- Witness for C6 at the connected default manager, delivering `error`
from its current socket. -/
theorem error_event_arms_exactly_one_timer_witness :
    sys1.host.activeTimers.length ≤ 1 ∧
    (deliver 0 .errorEv sys1).host.activeTimers.length = 1 ∧
    (deliver 0 .errorEv sys1).client.reconnectInterval ≠ none :=
  ⟨(error_event_arms_exactly_one_timer false optsNone [.connectOp] 0).1,
   (error_event_arms_exactly_one_timer false optsNone [.connectOp] 0).2
     (by decide) (by decide) (by decide)⟩

/-! Bounded reconnect cycles.  A `connect()` call allocates exactly one
fresh socket handle, so the growth of `nextSocketId` counts the
`connect()` calls a run makes. -/

/-- While under the bound (or with no bound), one timer callback
increments the attempt counter, performs one `connect()` (one fresh
socket handle), and leaves the timer handle and the bound unchanged. -/
theorem reconnect_connects (s : Sys)
    (h : s.client.maxReconnectAttempts = 0 ∨
         s.client.reconnectAttempts < s.client.maxReconnectAttempts) :
    (reconnect s).client.reconnectAttempts = s.client.reconnectAttempts + 1 ∧
    (reconnect s).client.maxReconnectAttempts = s.client.maxReconnectAttempts ∧
    (reconnect s).client.reconnectInterval = s.client.reconnectInterval ∧
    (reconnect s).host.nextSocketId = s.host.nextSocketId + 1 := by
  unfold reconnect
  rw [if_pos h]
  unfold connect close
  cases hw : s.client.websocket <;> simp [hw]

/-- At the bound, one timer callback stops the cycle: counter, bound and
socket allocation are untouched and the timer handle is cleared. -/
theorem reconnect_stops (s : Sys)
    (h1 : s.client.maxReconnectAttempts ≠ 0)
    (h2 : ¬ s.client.reconnectAttempts < s.client.maxReconnectAttempts) :
    (reconnect s).client.reconnectAttempts = s.client.reconnectAttempts ∧
    (reconnect s).client.maxReconnectAttempts = s.client.maxReconnectAttempts ∧
    (reconnect s).client.reconnectInterval = none ∧
    (reconnect s).host.nextSocketId = s.host.nextSocketId := by
  unfold reconnect
  rw [if_neg (not_or.mpr ⟨h1, h2⟩)]
  unfold stopAutoReconnect clearIntervalOp
  cases hri : s.client.reconnectInterval <;> simp [hri]

/-- Trajectory of a bounded cycle: after `n` callback firings from a
state with `reconnectAttempts ≤ M` and `M ≠ 0`, the counter sits at
`min (start + n) M`, exactly `min (start + n) M - start` connects have
happened, and the timer handle is cleared exactly once the count would
pass `M`. -/
theorem reconnectN_bounded (n : Nat) : ∀ s : Sys,
    s.client.maxReconnectAttempts ≠ 0 →
    s.client.reconnectAttempts ≤ s.client.maxReconnectAttempts →
    (reconnectN n s).client.reconnectAttempts =
      min (s.client.reconnectAttempts + n) s.client.maxReconnectAttempts ∧
    (reconnectN n s).client.maxReconnectAttempts = s.client.maxReconnectAttempts ∧
    (reconnectN n s).host.nextSocketId =
      s.host.nextSocketId +
        (min (s.client.reconnectAttempts + n) s.client.maxReconnectAttempts -
          s.client.reconnectAttempts) ∧
    (s.client.reconnectAttempts + n ≤ s.client.maxReconnectAttempts →
      (reconnectN n s).client.reconnectInterval = s.client.reconnectInterval) ∧
    (s.client.maxReconnectAttempts < s.client.reconnectAttempts + n →
      (reconnectN n s).client.reconnectInterval = none) := by
  induction n with
  | zero =>
      intro s hM hle
      have hz : reconnectN 0 s = s := rfl
      rw [hz]
      exact ⟨by omega, rfl, by omega, fun _ => rfl, fun hc => absurd hle (by omega)⟩
  | succ n ih =>
      intro s hM hle
      have hrw : reconnectN (n + 1) s = reconnectN n (reconnect s) := rfl
      by_cases hlt : s.client.reconnectAttempts < s.client.maxReconnectAttempts
      · obtain ⟨e1, e2, e3, e4⟩ := reconnect_connects s (Or.inr hlt)
        obtain ⟨i1, i2, i3, i4, i5⟩ :=
          ih (reconnect s) (by rw [e2]; exact hM) (by rw [e1, e2]; omega)
        refine ⟨?_, ?_, ?_, ?_, ?_⟩
        · rw [hrw, i1, e1, e2]
          omega
        · rw [hrw, i2, e2]
        · rw [hrw, i3, e1, e2, e4]
          omega
        · intro hc
          have := i4 (by rw [e1, e2]; omega)
          rw [hrw, this, e3]
        · intro hc
          have := i5 (by rw [e1, e2]; omega)
          rw [hrw, this]
      · have heq : s.client.reconnectAttempts = s.client.maxReconnectAttempts := by omega
        obtain ⟨e1, e2, e3, e4⟩ := reconnect_stops s hM hlt
        obtain ⟨i1, i2, i3, i4, i5⟩ :=
          ih (reconnect s) (by rw [e2]; exact hM) (by rw [e1, e2]; exact hle)
        refine ⟨?_, ?_, ?_, ?_, ?_⟩
        · rw [hrw, i1, e1, e2]
          omega
        · rw [hrw, i2, e2]
        · rw [hrw, i3, e1, e2, e4]
          omega
        · intro hc
          exact absurd hc (by omega)
        · intro hc
          rcases le_or_lt ((reconnect s).client.reconnectAttempts + n)
              (reconnect s).client.maxReconnectAttempts with hle2 | hlt2
          · rw [hrw, i4 hle2, e3]
          · rw [hrw, i5 hlt2]

/-- Trajectory of an unlimited cycle (`maxReconnectAttempts = 0`): every
callback firing performs a `connect()` and the timer is never cleared. -/
theorem reconnectN_unlimited (n : Nat) : ∀ s : Sys,
    s.client.maxReconnectAttempts = 0 →
    (reconnectN n s).host.nextSocketId = s.host.nextSocketId + n ∧
    (reconnectN n s).client.reconnectInterval = s.client.reconnectInterval ∧
    (reconnectN n s).client.maxReconnectAttempts = 0 := by
  induction n with
  | zero =>
      intro s hM
      exact ⟨rfl, rfl, hM⟩
  | succ n ih =>
      intro s hM
      obtain ⟨e1, e2, e3, e4⟩ := reconnect_connects s (Or.inl hM)
      obtain ⟨i1, i2, i3⟩ := ih (reconnect s) (by rw [e2]; exact hM)
      have hrw : reconnectN (n + 1) s = reconnectN n (reconnect s) := rfl
      refine ⟨?_, ?_, ?_⟩
      · rw [hrw, i1, e4]
        omega
      · rw [hrw, i2, e3]
      · rw [hrw, i3]

/-- C2: from the start of a reconnect cycle (`reconnectAttempts = 0`),
with a nonzero bound `M` the timer performs at most `M` `connect()` calls
(counted by fresh socket handles), the counter never exceeds `M`, and one
further firing after the `M`-th clears the timer handle (self-disarm);
with bound 0 every firing performs a `connect()` and the timer handle is
never cleared. -/
theorem reconnect_cycle_bounded (s : Sys) (n : Nat)
    (h0 : s.client.reconnectAttempts = 0) :
    (s.client.maxReconnectAttempts ≠ 0 →
      (reconnectN n s).host.nextSocketId - s.host.nextSocketId ≤
        s.client.maxReconnectAttempts ∧
      (reconnectN n s).client.reconnectAttempts ≤ s.client.maxReconnectAttempts ∧
      (reconnectN (s.client.maxReconnectAttempts + 1) s).client.reconnectInterval = none) ∧
    (s.client.maxReconnectAttempts = 0 →
      (reconnectN n s).host.nextSocketId = s.host.nextSocketId + n ∧
      (reconnectN n s).client.reconnectInterval = s.client.reconnectInterval) := by
  constructor
  · intro hM
    obtain ⟨i1, i2, i3, i4, i5⟩ := reconnectN_bounded n s hM (by omega)
    obtain ⟨j1, j2, j3, j4, j5⟩ :=
      reconnectN_bounded (s.client.maxReconnectAttempts + 1) s hM (by omega)
    exact ⟨by rw [i3]; omega, by rw [i1]; omega, j5 (by omega)⟩
  · intro hM
    obtain ⟨i1, i2, i3⟩ := reconnectN_unlimited n s hM
    exact ⟨i1, i2⟩

/-- Cycle-start state for the C2 witness: bound 3, connect, then an
`error` event arms the timer and resets the counter to 0. -/
def sC2 : Sys :=
  run (initSys false ⟨none, none, some 3, none, none⟩)
    [.connectOp, .deliverOp 0 .errorEv]

/-- Witness for C2 with bound 3 over 5 firings. -/
theorem reconnect_cycle_bounded_witness :
    (reconnectN 5 sC2).host.nextSocketId - sC2.host.nextSocketId ≤
      sC2.client.maxReconnectAttempts ∧
    (reconnectN 5 sC2).client.reconnectAttempts ≤ sC2.client.maxReconnectAttempts ∧
    (reconnectN (sC2.client.maxReconnectAttempts + 1) sC2).client.reconnectInterval = none :=
  (reconnect_cycle_bounded sC2 5 (by decide)).1 (by decide)

end WSC
